import Mathlib

/-
Shallow embedding of the chat subsystem of the pupinn hotel-operations
backend (src/backend/src/api/chat.rs), together with the supporting data
model (src/backend/src/models/user.rs, src/backend/src/models/message.rs).

Modelling conventions:
- `Uuid` values are modelled as `Nat` identifiers; `DateTime<Utc>`
  timestamps as `Nat`.
- The relational store is a `Db` record holding the `users` and `messages`
  tables as lists in insertion order.
- Diesel's `ORDER BY created_at ASC` is modelled by a stable sort
  (`List.insertionSort`) on the created_at key.
- Fallible external effects that a handler swallows (the per-contact
  unread-count query, the message insert) are passed in as explicit
  outcome parameters, mirroring `unwrap_or_else` / `.ok()` in the source.
- Server-generated ids and timestamps (`Uuid::new_v4()`, `Utc::now()`,
  and the DB-assigned columns returned by `get_result`) are passed in as
  parameters `freshId` / `now`.
-/

namespace Pupinn

/-- UserRole enum from src/backend/src/models/user.rs. -/
inductive UserRole
  | Admin
  | Receptionist
  | Guest
  | Cleaner
deriving DecidableEq, Repr, Fintype

/-- User row from src/backend/src/models/user.rs; `deactivated` models
whether the schema column `deactivated_at` is non-NULL, which is all the
chat handlers inspect (`users::deactivated_at.is_null()`). -/
structure User where
  id : Nat
  username : Option String
  role : UserRole
  full_name : Option String
  deactivated : Bool
deriving DecidableEq, Repr

/-- Message row from src/backend/src/models/message.rs. -/
structure Message where
  id : Nat
  sender_id : Nat
  receiver_id : Nat
  content : String
  image_url : Option String
  is_read : Bool
  created_at : Nat
  updated_at : Nat
deriving DecidableEq, Repr

/-- The relational store: the `users` and `messages` tables, rows in
insertion order. -/
structure Db where
  users : List User
  messages : List Message
deriving DecidableEq, Repr

/-- Error variants of `AppError` reachable from `get_chat_history`
(src/backend/src/errors via chat.rs lines 174, 182). -/
inductive AppError
  | NotFound (msg : String)
  | Forbidden (msg : String)
deriving DecidableEq, Repr

/-- RBAC validation logic, chat.rs lines 70-86 (`can_chat`). -/
def can_chat : UserRole → UserRole → Bool
  | UserRole.Guest, UserRole.Receptionist => true
  | UserRole.Receptionist, UserRole.Guest => true
  | UserRole.Admin, UserRole.Receptionist => true
  | UserRole.Receptionist, UserRole.Admin => true
  | UserRole.Admin, UserRole.Cleaner => true
  | UserRole.Cleaner, UserRole.Admin => true
  | _, _ => false

/-- Lookup `users::table.find(id)`: first row whose primary key matches. -/
def findUser (db : Db) (uid : Nat) : Option User :=
  db.users.find? (fun u => u.id == uid)

/-- Filter of the history query, chat.rs lines 186-192: messages where
(sender, receiver) is (a, b) or (b, a). -/
def betweenPair (a b : Nat) (m : Message) : Bool :=
  (m.sender_id == a && m.receiver_id == b) ||
  (m.sender_id == b && m.receiver_id == a)

/-- Ascending-by-creation-time order on messages, the `ORDER BY
created_at ASC` key of the history query (chat.rs line 193). -/
def byTime (a b : Message) : Prop := a.created_at ≤ b.created_at

instance : DecidableRel byTime := fun a b => Nat.decLe a.created_at b.created_at

instance : IsTotal Message byTime := ⟨fun a b => Nat.le_total a.created_at b.created_at⟩

instance : IsTrans Message byTime := ⟨fun _ _ _ => Nat.le_trans⟩

/-- The history query, chat.rs lines 186-198: both directions between the
two users, ascending by creation time (stable sort over table order). -/
def historyQuery (db : Db) (userA userB : Nat) : List Message :=
  (db.messages.filter (betweenPair userA userB)).insertionSort byTime

/-- Row-level effect of the mark-as-read UPDATE, chat.rs lines 203-214:
`SET is_read = true` on rows matching sender = `sender`, receiver =
`receiver`, is_read = false; any other row is untouched. -/
def markRead (sender receiver : Nat) (m : Message) : Message :=
  if m.sender_id == sender && m.receiver_id == receiver && m.is_read == false
  then { m with is_read := true }
  else m

/-- Handler `get_chat_history`, chat.rs lines 155-233. Returns the store
after the handler ran together with the HTTP result. Faithful to the
source ordering: the message list is loaded (lines 186-198) BEFORE the
mark-as-read UPDATE executes (lines 203-214), and the response (lines
218-229) is built from that pre-update snapshot. -/
def get_chat_history (db : Db) (requester_id : Nat) (requester_role : UserRole)
    (other_user_id : Nat) : Db × Except AppError (List Message) :=
  match findUser db other_user_id with
  | none => (db, Except.error (AppError.NotFound "User not found"))
  | some other_user =>
    if !can_chat requester_role other_user.role then
      (db, Except.error (AppError.Forbidden "Cannot chat with this user"))
    else
      let message_list := historyQuery db requester_id other_user_id
      let db2 : Db :=
        { db with messages := db.messages.map (markRead other_user_id requester_id) }
      (db2, Except.ok message_list)

/-- Contact record, chat.rs lines 43-49. -/
structure Contact where
  id : Nat
  name : String
  role : UserRole
  unread_count : Int
deriving DecidableEq, Repr

/-- Role table of `get_contacts`, chat.rs lines 102-107: the roles the
requester may chat with. -/
def allowed_roles : UserRole → List UserRole
  | UserRole.Admin => [UserRole.Receptionist, UserRole.Cleaner]
  | UserRole.Receptionist => [UserRole.Admin, UserRole.Guest]
  | UserRole.Guest => [UserRole.Receptionist]
  | UserRole.Cleaner => [UserRole.Admin]

/-- Contact display name, chat.rs lines 137-140: username, else full
name, else "User {id}". -/
def contactName (u : User) : String :=
  match u.username with
  | some n => n
  | none =>
    match u.full_name with
    | some n => n
    | none => "User " ++ toString u.id

/-- The unread-count query, chat.rs lines 126-131: number of unread
messages from `sender` to `receiver`. -/
def unreadCount (db : Db) (sender receiver : Nat) : Int :=
  ((db.messages.filter (fun m =>
    m.sender_id == sender && m.receiver_id == receiver && m.is_read == false)).length : Int)

/-- The user query of `get_contacts`, chat.rs lines 112-119: all
non-deactivated users whose role is in the allowed-roles table. -/
def contactUsers (db : Db) (requester_role : UserRole) : List User :=
  db.users.filter (fun u =>
    (allowed_roles requester_role).contains u.role && !u.deactivated)

/-- One iteration of the contact-building loop, chat.rs lines 125-148.
`countQuery` stands for the fallible unread-count DB query for a given
contact id; on failure the count degrades to 0 (`unwrap_or_else`, lines
132-135). -/
def mkContact (countQuery : Nat → Except String Int) (u : User) : Contact :=
  { id := u.id
    name := contactName u
    role := u.role
    unread_count :=
      match countQuery u.id with
      | Except.ok n => n
      | Except.error _ => 0 }

/-- Handler `get_contacts`, chat.rs lines 89-152: filter users by the
allowed-roles table and deactivation, then build one contact per user in
a loop, each with its (possibly degraded-to-0) unread count. -/
def get_contacts (db : Db) (countQuery : Nat → Except String Int)
    (requester_role : UserRole) : List Contact :=
  (contactUsers db requester_role).foldl
    (fun contacts u => contacts ++ [mkContact countQuery u]) []

/-- The real unread-count query as run by the handler for requester
`requester_id`: always succeeds with the count from the store. -/
def liveCountQuery (db : Db) (requester_id : Nat) : Nat → Except String Int :=
  fun sender => Except.ok (unreadCount db sender requester_id)

/-- Payload of a parsed inbound socket frame, chat.rs lines 62-67
(`IncomingChatMessage`). -/
structure IncomingChatMessage where
  receiver_id : Nat
  content : String
  image_url : Option String
deriving DecidableEq, Repr

/-- An inbound WebSocket frame as seen by the inbound loop, chat.rs line
323: only `WsMessage::Text` is examined; every other frame kind
(binary, ping, pong, close payloads the loop still receives) is lumped
into `nonText`. -/
inductive Frame
  | text (payload : String)
  | nonText
deriving DecidableEq, Repr

/-- Outcome of the `diesel::insert_into(messages).get_result` call,
chat.rs lines 358-361: either the DB persisted the row and returned it,
or the insert failed (`.ok()` turned it into `None`). -/
inductive InsertOutcome
  | success
  | failure
deriving DecidableEq, Repr

/-- Environment of one iteration of the inbound loop: the frame, the
outcome of the insert were it reached, and the fresh id / current time
the iteration would use (DB-assigned on success, `Uuid::new_v4()` /
`Utc::now()` on the synthesized-fallback path). -/
structure FrameInput where
  frame : Frame
  insertOutcome : InsertOutcome
  freshId : Nat
  now : Nat
deriving DecidableEq, Repr

/-- Observable effect of one iteration of the inbound loop: the store
afterwards and the payloads pushed into registry channels, as pairs of
(channel owner id, message rendered into the JSON frame). The loop has no
path that writes to the sender's own socket, so there is no error output
in this type, matching the source. -/
structure FrameEffect where
  db : Db
  deliveries : List (Nat × Message)
deriving DecidableEq, Repr

/-- One iteration of the inbound loop of `handle_socket`, chat.rs lines
322-399. `connections` is the set of user ids present in the connection
registry (`active_connections` keys); `parse` stands for
`serde_json::from_str::<IncomingChatMessage>`. Non-text frames, parse
failures, unknown receivers and RBAC denials all fall through to the next
loop iteration with no effect (`continue` / `if let` fall-through); on
insert failure a record is synthesized locally and still forwarded. -/
def process_frame (db : Db) (connections : List Nat) (my_id : Nat)
    (my_role : UserRole) (parse : String → Option IncomingChatMessage)
    (i : FrameInput) : FrameEffect :=
  match i.frame with
  | Frame.nonText => { db := db, deliveries := [] }
  | Frame.text payload =>
    match parse payload with
    | none => { db := db, deliveries := [] }
    | some incoming =>
      match findUser db incoming.receiver_id with
      | none => { db := db, deliveries := [] }
      | some receiver_user =>
        if !can_chat my_role receiver_user.role then
          { db := db, deliveries := [] }
        else
          let saved_message : Message :=
            { id := i.freshId
              sender_id := my_id
              receiver_id := incoming.receiver_id
              content := incoming.content
              image_url := incoming.image_url
              is_read := false
              created_at := i.now
              updated_at := i.now }
          let db2 : Db :=
            match i.insertOutcome with
            | InsertOutcome.success => { db with messages := db.messages ++ [saved_message] }
            | InsertOutcome.failure => db
          let deliveries :=
            if connections.contains incoming.receiver_id then
              [(incoming.receiver_id, saved_message)]
            else []
          { db := db2, deliveries := deliveries }

/-- The inbound loop of `handle_socket` over a finite stream of frames
(chat.rs `while let Some(Ok(msg)) = receiver.next().await`): each frame
is processed in order against the store left by the previous one; the
loop never exits early on a bad frame, only when the stream ends. -/
def process_frames (db : Db) (connections : List Nat) (my_id : Nat)
    (my_role : UserRole) (parse : String → Option IncomingChatMessage) :
    List FrameInput → Db × List (Nat × Message)
  | [] => (db, [])
  | i :: rest =>
    let e := process_frame db connections my_id my_role parse i
    let r := process_frames e.db connections my_id my_role parse rest
    (r.1, e.deliveries ++ r.2)

/-! Concrete sample directory used to witness the theorems: a guest, a
receptionist, a second guest, and a deactivated receptionist, plus one
unread message from the receptionist to the first guest. -/

def uGuest : User :=
  { id := 1, username := none, role := UserRole.Guest,
    full_name := some "Alice", deactivated := false }

def uRecep : User :=
  { id := 2, username := some "rex", role := UserRole.Receptionist,
    full_name := none, deactivated := false }

def uGuestB : User :=
  { id := 3, username := none, role := UserRole.Guest,
    full_name := some "Bob", deactivated := false }

def uRecepGone : User :=
  { id := 4, username := some "dora", role := UserRole.Receptionist,
    full_name := none, deactivated := true }

def mUnread : Message :=
  { id := 10, sender_id := 2, receiver_id := 1, content := "hi",
    image_url := none, is_read := false, created_at := 5, updated_at := 5 }

def wDb : Db := { users := [uGuest, uRecep, uGuestB, uRecepGone], messages := [mUnread] }

/-- Parse oracle that always yields a message to user 3 (a guest). -/
def parseTo3 : String → Option IncomingChatMessage := fun _ => some ⟨3, "yo", none⟩

/-- Parse oracle that always yields a message to user 2 (the receptionist). -/
def parseTo2 : String → Option IncomingChatMessage := fun _ => some ⟨2, "hey", some "img"⟩

/-- Count oracle that always fails, standing for a broken unread-count query. -/
def failCountQuery : Nat → Except String Int := fun _ => Except.error "db down"

/-! Helper lemmas shared by several claims. -/

/-- Success case of `get_chat_history`: when the counterpart exists and
RBAC allows the pair, the handler returns the sorted pre-update snapshot
and the store with the mark-as-read UPDATE applied. -/
theorem get_chat_history_ok (db : Db) (req : Nat) (role : UserRole) (oid : Nat)
    (u : User) (hu : findUser db oid = some u) (hc : can_chat role u.role = true) :
    get_chat_history db req role oid =
      ({ users := db.users, messages := db.messages.map (markRead oid req) },
        Except.ok (historyQuery db req oid)) := by
  simp [get_chat_history, hu, hc]

/-- The contact-building fold of `get_contacts` is a map over the
filtered user list. -/
theorem foldl_push_eq_map {α β : Type} (f : α → β) (l : List α) (acc : List β) :
    List.foldl (fun cs u => cs ++ [f u]) acc l = acc ++ l.map f := by
  induction l generalizing acc with
  | nil => simp
  | cons x xs ih => simp [List.foldl, ih]

/-- `get_contacts` unfolded to a map over the filtered users. -/
theorem get_contacts_eq_map (db : Db) (q : Nat → Except String Int) (role : UserRole) :
    get_contacts db q role = (contactUsers db role).map (mkContact q) := by
  simpa [get_contacts] using foldl_push_eq_map (mkContact q) (contactUsers db role) []

/-- Membership in the contact list characterized: each contact is built
from a table row with an allowed role that is not deactivated. -/
theorem mem_get_contacts_iff (db : Db) (q : Nat → Except String Int)
    (role : UserRole) (c : Contact) :
    c ∈ get_contacts db q role ↔
      ∃ u, u ∈ db.users ∧ (allowed_roles role).contains u.role = true ∧
        u.deactivated = false ∧ c = mkContact q u := by
  rw [get_contacts_eq_map]
  simp only [List.mem_map, contactUsers, List.mem_filter, Bool.and_eq_true,
    Bool.not_eq_true']
  constructor
  · rintro ⟨u, ⟨hu, hr, hd⟩, rfl⟩
    exact ⟨u, hu, hr, hd, rfl⟩
  · rintro ⟨u, hu, hr, hd, rfl⟩
    exact ⟨u, ⟨hu, hr, hd⟩, rfl⟩

/-! Claims. -/

/-- C2: over all 16 ordered role pairs, `can_chat` is true exactly on the
6 pairs Guest-Receptionist, Receptionist-Guest, Admin-Receptionist,
Receptionist-Admin, Admin-Cleaner, Cleaner-Admin, false on every other
pair including every same-role pair, and it is symmetric; it is pure and
total by construction (a total Lean function). -/
theorem C2_can_chat_table :
    (∀ a b : UserRole, can_chat a b = true ↔
      ((a = UserRole.Guest ∧ b = UserRole.Receptionist) ∨
       (a = UserRole.Receptionist ∧ b = UserRole.Guest) ∨
       (a = UserRole.Admin ∧ b = UserRole.Receptionist) ∨
       (a = UserRole.Receptionist ∧ b = UserRole.Admin) ∨
       (a = UserRole.Admin ∧ b = UserRole.Cleaner) ∨
       (a = UserRole.Cleaner ∧ b = UserRole.Admin))) ∧
    (∀ a b : UserRole, can_chat a b = can_chat b a) ∧
    (∀ r : UserRole, can_chat r r = false) := by
  refine ⟨?_, ?_, ?_⟩ <;> decide

/-- C2 witness: the table instantiated at a concrete allowed pair. -/
theorem C2_can_chat_table_witness :
    can_chat UserRole.Guest UserRole.Receptionist = true :=
  (C2_can_chat_table.1 UserRole.Guest UserRole.Receptionist).mpr (Or.inl ⟨rfl, rfl⟩)

/-- C3: `get_chat_history` fails NotFound when the other user id is
absent from the directory, and Forbidden when the user exists but the
role pair is denied; in both cases the returned store is the input store
unchanged (no messages marked read) and no messages are returned. -/
theorem C3_history_error_paths (db : Db) (req : Nat) (role : UserRole) (oid : Nat) :
    (findUser db oid = none →
      get_chat_history db req role oid =
        (db, Except.error (AppError.NotFound "User not found"))) ∧
    (∀ u, findUser db oid = some u → can_chat role u.role = false →
      get_chat_history db req role oid =
        (db, Except.error (AppError.Forbidden "Cannot chat with this user"))) := by
  constructor
  · intro h
    simp [get_chat_history, h]
  · intro u hu hc
    simp [get_chat_history, hu, hc]

/-- C3 witness: unknown id 99 gives NotFound with the store unchanged;
guest 1 targeting guest 3 (denied pair) gives Forbidden with the store
unchanged. -/
theorem C3_history_error_paths_witness :
    get_chat_history wDb 1 UserRole.Guest 99 =
      (wDb, Except.error (AppError.NotFound "User not found")) ∧
    get_chat_history wDb 1 UserRole.Guest 3 =
      (wDb, Except.error (AppError.Forbidden "Cannot chat with this user")) :=
  ⟨(C3_history_error_paths wDb 1 UserRole.Guest 99).1 rfl,
   (C3_history_error_paths wDb 1 UserRole.Guest 3).2 uGuestB rfl rfl⟩

/-- C6: the mark-as-read UPDATE of `get_chat_history` flips is_read from
false to true exactly on messages sent by the counterpart to the
requester that were unread; every other row is returned verbatim, every
field other than is_read is preserved, the flip is one-way (never
true to false), and in the handler the store change is exactly this map
over the messages table with the users table untouched. -/
theorem C6_markRead_frame (sender receiver : Nat) (m : Message) :
    (m.sender_id = sender → m.receiver_id = receiver → m.is_read = false →
      markRead sender receiver m = { m with is_read := true }) ∧
    (¬(m.sender_id = sender ∧ m.receiver_id = receiver ∧ m.is_read = false) →
      markRead sender receiver m = m) ∧
    ((markRead sender receiver m).id = m.id ∧
     (markRead sender receiver m).sender_id = m.sender_id ∧
     (markRead sender receiver m).receiver_id = m.receiver_id ∧
     (markRead sender receiver m).content = m.content ∧
     (markRead sender receiver m).image_url = m.image_url ∧
     (markRead sender receiver m).created_at = m.created_at ∧
     (markRead sender receiver m).updated_at = m.updated_at) ∧
    (m.is_read = true → (markRead sender receiver m).is_read = true) ∧
    (∀ db req role oid u, findUser db oid = some u → can_chat role u.role = true →
      (get_chat_history db req role oid).1.messages =
        db.messages.map (markRead oid req) ∧
      (get_chat_history db req role oid).1.users = db.users) := by
  refine ⟨?_, ?_, ?_, ?_, ?_⟩
  · intro h1 h2 h3
    simp [markRead, h1, h2, h3]
  · intro h
    unfold markRead
    split
    · rename_i hcond
      exact absurd (by simpa [and_assoc] using hcond) h
    · rfl
  · unfold markRead
    split <;> simp
  · intro h
    unfold markRead
    split <;> simp [h]
  · intro db req role oid u hu hc
    rw [get_chat_history_ok db req role oid u hu hc]
    exact ⟨rfl, rfl⟩

/-- C6 witness: the unread message from user 2 to user 1 is flipped to
read with all other fields kept, and an already-read message is left
alone. -/
theorem C6_markRead_frame_witness :
    markRead 2 1 mUnread = { mUnread with is_read := true } ∧
    markRead 9 1 mUnread = mUnread :=
  ⟨(C6_markRead_frame 2 1 mUnread).1 rfl rfl rfl,
   (C6_markRead_frame 9 1 mUnread).2.1 (by decide)⟩

/-- C1 counterexample: guest 1 fetches history with receptionist 2 while
one unread message from 2 to 1 is stored. The handler marks the stored
row read (the store afterwards holds it with is_read = true), yet the
returned sequence carries that very message with is_read = false — the
pre-update snapshot — refuting the claim that every counterpart-to-
requester message is returned with is_read = true. -/
theorem C1_counterexample :
    (get_chat_history wDb 1 UserRole.Guest 2).1.messages =
      [{ mUnread with is_read := true }] ∧
    (get_chat_history wDb 1 UserRole.Guest 2).2 = Except.ok [mUnread] ∧
    mUnread.sender_id = 2 ∧ mUnread.receiver_id = 1 ∧ mUnread.is_read = false := by
  exact ⟨by decide, rfl, rfl, rfl, rfl⟩

/-- C1 amended: for an existing counterpart with an allowed role pair,
`get_chat_history` succeeds, returns the full transcript between the two
users (both directions) ascending by creation time, and marks the
counterpart-to-requester messages read in the store — but the returned
read flags are the snapshot taken BEFORE the mark-as-read update (the
returned list is a permutation of the pre-update rows), not the
post-update values. -/
theorem C1_history_returns_preupdate_snapshot (db : Db) (req : Nat)
    (role : UserRole) (oid : Nat) (u : User)
    (hu : findUser db oid = some u) (hc : can_chat role u.role = true) :
    ∃ l, get_chat_history db req role oid =
        ({ users := db.users, messages := db.messages.map (markRead oid req) },
          Except.ok l) ∧
      List.Sorted byTime l ∧
      l.Perm (db.messages.filter (betweenPair req oid)) := by
  refine ⟨historyQuery db req oid, get_chat_history_ok db req role oid u hu hc, ?_, ?_⟩
  · exact List.sorted_insertionSort byTime (db.messages.filter (betweenPair req oid))
  · exact List.perm_insertionSort byTime (db.messages.filter (betweenPair req oid))

/-- C1 witness: the amended theorem applied to the sample store with
guest 1 fetching history with receptionist 2. -/
theorem C1_history_returns_preupdate_snapshot_witness :
    ∃ l, get_chat_history wDb 1 UserRole.Guest 2 =
        ({ users := wDb.users, messages := wDb.messages.map (markRead 2 1) },
          Except.ok l) ∧
      List.Sorted byTime l ∧
      l.Perm (wDb.messages.filter (betweenPair 1 2)) :=
  C1_history_returns_preupdate_snapshot wDb 1 UserRole.Guest 2 uRecep rfl rfl

/-- C4: the hard-coded allowed-roles table of `get_contacts` agrees
exactly with the RBAC predicate (`r' ∈ allowed_roles r` iff
`can_chat r r'`), and with the live unread-count query every returned
contact stems from a stored, non-deactivated user whose role the
requester may chat with, carrying that user's id, display name, role,
and the count of unread messages from that user to the requester. -/
theorem C4_contacts_match_rbac (db : Db) (req : Nat) (role : UserRole) :
    (∀ r r' : UserRole, (allowed_roles r).contains r' = can_chat r r') ∧
    (∀ c, c ∈ get_contacts db (liveCountQuery db req) role →
      ∃ u, u ∈ db.users ∧ u.deactivated = false ∧ can_chat role u.role = true ∧
        c.id = u.id ∧ c.name = contactName u ∧ c.role = u.role ∧
        c.unread_count = unreadCount db u.id req) := by
  have htab : ∀ r r' : UserRole, (allowed_roles r).contains r' = can_chat r r' := by
    decide
  refine ⟨htab, ?_⟩
  intro c hc
  obtain ⟨u, hu, hr, hd, rfl⟩ := (mem_get_contacts_iff db _ role c).mp hc
  refine ⟨u, hu, hd, ?_, rfl, rfl, rfl, rfl⟩
  rw [← htab]
  exact hr

/-- C4 witness: for guest 1 on the sample store, the contact built from
receptionist 2 satisfies the characterization (with unread count 1). -/
theorem C4_contacts_match_rbac_witness :
    ∃ u, u ∈ wDb.users ∧ u.deactivated = false ∧
      can_chat UserRole.Guest u.role = true ∧
      (mkContact (liveCountQuery wDb 1) uRecep).id = u.id ∧
      (mkContact (liveCountQuery wDb 1) uRecep).name = contactName u ∧
      (mkContact (liveCountQuery wDb 1) uRecep).role = u.role ∧
      (mkContact (liveCountQuery wDb 1) uRecep).unread_count = unreadCount wDb u.id 1 :=
  (C4_contacts_match_rbac wDb 1 UserRole.Guest).2
    (mkContact (liveCountQuery wDb 1) uRecep) (by decide)

/-- C5: the shape of the contact list (ids, names, roles, and which
contacts appear) does not depend on the unread-count query at all — so a
count failure can neither fail the whole call nor drop a contact — and a
user whose count query fails is still returned as a contact with
unread_count degraded to 0. -/
theorem C5_count_failure_degrades (db : Db) (role : UserRole)
    (q : Nat → Except String Int) (u : User) (e : String)
    (hu : u ∈ db.users)
    (hr : (allowed_roles role).contains u.role = true)
    (hd : u.deactivated = false)
    (hq : q u.id = Except.error e) :
    (∀ q2 : Nat → Except String Int,
      (get_contacts db q role).map (fun c => (c.id, c.name, c.role)) =
        (get_contacts db q2 role).map (fun c => (c.id, c.name, c.role))) ∧
    (∃ c, c ∈ get_contacts db q role ∧ c.id = u.id ∧ c.name = contactName u ∧
      c.role = u.role ∧ c.unread_count = 0) := by
  constructor
  · intro q2
    rw [get_contacts_eq_map, get_contacts_eq_map, List.map_map, List.map_map]
    rfl
  · refine ⟨mkContact q u, ?_, rfl, rfl, rfl, ?_⟩
    · exact (mem_get_contacts_iff db q role (mkContact q u)).mpr ⟨u, hu, hr, hd, rfl⟩
    · simp [mkContact, hq]

/-- C5 witness: with the always-failing count query, receptionist 2
still appears in guest 1's contact list, with unread_count 0. -/
theorem C5_count_failure_degrades_witness :
    (∀ q2 : Nat → Except String Int,
      (get_contacts wDb failCountQuery UserRole.Guest).map (fun c => (c.id, c.name, c.role)) =
        (get_contacts wDb q2 UserRole.Guest).map (fun c => (c.id, c.name, c.role))) ∧
    (∃ c, c ∈ get_contacts wDb failCountQuery UserRole.Guest ∧ c.id = uRecep.id ∧
      c.name = contactName uRecep ∧ c.role = uRecep.role ∧ c.unread_count = 0) :=
  C5_count_failure_degrades wDb UserRole.Guest failCountQuery uRecep "db down"
    (by decide) (by decide) rfl rfl

/-- C7: an inbound frame that is non-text, unparseable, addressed to an
unknown receiver, or RBAC-denied leaves the store untouched and pushes
nothing into any registry channel, and the loop simply moves on to the
remaining frames; the inbound loop has no output channel back to the
sender's socket at all (the effect type has no error component), so no
error can be surfaced. -/
theorem C7_bad_frames_ignored (db : Db) (conns : List Nat) (my_id : Nat)
    (my_role : UserRole) (parse : String → Option IncomingChatMessage)
    (i : FrameInput)
    (h : i.frame = Frame.nonText ∨
      ∃ p, i.frame = Frame.text p ∧
        (parse p = none ∨
          ∃ inc, parse p = some inc ∧
            (findUser db inc.receiver_id = none ∨
              ∃ ru, findUser db inc.receiver_id = some ru ∧
                can_chat my_role ru.role = false))) :
    process_frame db conns my_id my_role parse i = { db := db, deliveries := [] } ∧
    (∀ rest, process_frames db conns my_id my_role parse (i :: rest) =
      process_frames db conns my_id my_role parse rest) := by
  have heff : process_frame db conns my_id my_role parse i =
      { db := db, deliveries := [] } := by
    rcases h with hfr | ⟨p, hfr, hrest⟩
    · simp [process_frame, hfr]
    · rcases hrest with hp | ⟨inc, hp, hrest⟩
      · simp [process_frame, hfr, hp]
      · rcases hrest with hr | ⟨ru, hr, hc⟩
        · simp [process_frame, hfr, hp, hr]
        · simp [process_frame, hfr, hp, hr, hc]
  refine ⟨heff, ?_⟩
  intro rest
  simp [process_frames, heff]

/-- C7 witness: a frame from guest 1 to guest 3 is RBAC-denied and has
no effect; the loop over just that frame equals the loop over nothing. -/
theorem C7_bad_frames_ignored_witness :
    process_frame wDb [] 1 UserRole.Guest parseTo3
        ⟨Frame.text "x", InsertOutcome.success, 0, 0⟩ =
      { db := wDb, deliveries := [] } ∧
    process_frames wDb [] 1 UserRole.Guest parseTo3
        [⟨Frame.text "x", InsertOutcome.success, 0, 0⟩] =
      process_frames wDb [] 1 UserRole.Guest parseTo3 [] :=
  ⟨(C7_bad_frames_ignored wDb [] 1 UserRole.Guest parseTo3 _
      (Or.inr ⟨"x", rfl, Or.inr ⟨⟨3, "yo", none⟩, rfl,
        Or.inr ⟨uGuestB, rfl, rfl⟩⟩⟩)).1,
   (C7_bad_frames_ignored wDb [] 1 UserRole.Guest parseTo3 _
      (Or.inr ⟨"x", rfl, Or.inr ⟨⟨3, "yo", none⟩, rfl,
        Or.inr ⟨uGuestB, rfl, rfl⟩⟩⟩)).2 []⟩

/-- C8: when the insert fails on an RBAC-allowed frame, the store is left
unchanged but live delivery is still attempted exactly as on the success
path: if the receiver has a registry channel it receives a locally
synthesized record with the same sender, receiver, content and image
reference, is_read = false, and the freshly generated id and
timestamps. -/
theorem C8_persist_failure_still_delivers (db : Db) (conns : List Nat)
    (my_id : Nat) (my_role : UserRole)
    (parse : String → Option IncomingChatMessage)
    (p : String) (inc : IncomingChatMessage) (ru : User) (fid t : Nat)
    (hp : parse p = some inc)
    (hr : findUser db inc.receiver_id = some ru)
    (hc : can_chat my_role ru.role = true) :
    process_frame db conns my_id my_role parse
        ⟨Frame.text p, InsertOutcome.failure, fid, t⟩ =
      { db := db,
        deliveries :=
          if conns.contains inc.receiver_id then
            [(inc.receiver_id,
              { id := fid, sender_id := my_id, receiver_id := inc.receiver_id,
                content := inc.content, image_url := inc.image_url,
                is_read := false, created_at := t, updated_at := t })]
          else [] } := by
  simp [process_frame, hp, hr, hc]

/-- C8 witness: guest 1 sends to connected receptionist 2, the insert
fails, and the synthesized record is still delivered to channel 2. -/
theorem C8_persist_failure_still_delivers_witness :
    process_frame wDb [2] 1 UserRole.Guest parseTo2
        ⟨Frame.text "x", InsertOutcome.failure, 42, 7⟩ =
      { db := wDb,
        deliveries :=
          if [2].contains (⟨2, "hey", some "img"⟩ : IncomingChatMessage).receiver_id then
            [((⟨2, "hey", some "img"⟩ : IncomingChatMessage).receiver_id,
              { id := 42, sender_id := 1,
                receiver_id := (⟨2, "hey", some "img"⟩ : IncomingChatMessage).receiver_id,
                content := (⟨2, "hey", some "img"⟩ : IncomingChatMessage).content,
                image_url := (⟨2, "hey", some "img"⟩ : IncomingChatMessage).image_url,
                is_read := false, created_at := 7, updated_at := 7 })]
          else [] } :=
  C8_persist_failure_still_delivers wDb [2] 1 UserRole.Guest parseTo2
    "x" ⟨2, "hey", some "img"⟩ uRecep 42 7 rfl rfl rfl

/-- C9: can_chat denies every same-role pair, the allowed-roles table of
the contact list never contains the requester's own role, an inbound
frame whose receiver has the sender's own role (in particular the sender
themself) is neither persisted nor delivered, and — whenever the
directory is consistent about the requester's record — no contact in the
requester's own contact list carries the requester's id. -/
theorem C9_no_self_chat (db : Db) (conns : List Nat) (my_id : Nat)
    (my_role : UserRole) (parse : String → Option IncomingChatMessage) :
    (∀ r : UserRole, can_chat r r = false) ∧
    (∀ r : UserRole, (allowed_roles r).contains r = false) ∧
    (∀ i p inc ru, i.frame = Frame.text p → parse p = some inc →
      findUser db inc.receiver_id = some ru → ru.role = my_role →
      process_frame db conns my_id my_role parse i = { db := db, deliveries := [] }) ∧
    (∀ q c, (∀ u, u ∈ db.users → u.id = my_id → u.role = my_role) →
      c ∈ get_contacts db q my_role → c.id ≠ my_id) := by
  refine ⟨by decide, by decide, ?_, ?_⟩
  · intro i p inc ru hfr hp hr hrole
    have hc : can_chat my_role ru.role = false := by
      rw [hrole]
      cases my_role <;> rfl
    simp [process_frame, hfr, hp, hr, hc]
  · intro q c hcons hcmem hid
    obtain ⟨u, hu, hr, hd, rfl⟩ := (mem_get_contacts_iff db q my_role c).mp hcmem
    have hrole : u.role = my_role := hcons u hu hid
    rw [hrole] at hr
    have : (allowed_roles my_role).contains my_role = false := by
      cases my_role <;> rfl
    rw [this] at hr
    exact Bool.false_ne_true hr

/-- C9 witness: a frame from guest 1 addressed to guest 3 (same role,
which also covers receiver_id = sender id) is dropped without any store
or delivery effect. -/
theorem C9_no_self_chat_witness :
    process_frame wDb [] 1 UserRole.Guest parseTo3
        ⟨Frame.text "x", InsertOutcome.success, 0, 0⟩ =
      { db := wDb, deliveries := [] } :=
  (C9_no_self_chat wDb [] 1 UserRole.Guest parseTo3).2.2.1
    ⟨Frame.text "x", InsertOutcome.success, 0, 0⟩ "x" ⟨3, "yo", none⟩ uGuestB
    rfl rfl rfl rfl

/-- C10: `get_chat_history` never consults the deactivation flag — for a
stored, deactivated counterpart with an allowed role pair it succeeds,
returns the transcript and applies the mark-as-read update — while
`get_contacts` excludes that same user (no contact carries an id whose
directory records are all deactivated). -/
theorem C10_deactivated_counterpart (db : Db) (req : Nat) (role : UserRole)
    (oid : Nat) (u : User)
    (hu : findUser db oid = some u)
    (_hdeact : u.deactivated = true)
    (hc : can_chat role u.role = true) :
    get_chat_history db req role oid =
      ({ users := db.users, messages := db.messages.map (markRead oid req) },
        Except.ok (historyQuery db req oid)) ∧
    (∀ q c, (∀ v, v ∈ db.users → v.id = oid → v.deactivated = true) →
      c ∈ get_contacts db q role → c.id ≠ oid) := by
  refine ⟨get_chat_history_ok db req role oid u hu hc, ?_⟩
  intro q c hall hcmem hid
  obtain ⟨v, hv, hr, hd, rfl⟩ := (mem_get_contacts_iff db q role c).mp hcmem
  have : v.deactivated = true := hall v hv hid
  rw [hd] at this
  exact Bool.false_ne_true this

/-- C10 witness: deactivated receptionist 4 exists in the sample store;
guest 1's history fetch against them succeeds and marks messages read,
while the contact built from active receptionist 2 (the shape every
contact of guest 1 takes) does not carry id 4. -/
theorem C10_deactivated_counterpart_witness :
    get_chat_history wDb 1 UserRole.Guest 4 =
      ({ users := wDb.users, messages := wDb.messages.map (markRead 4 1) },
        Except.ok (historyQuery wDb 1 4)) ∧
    (mkContact failCountQuery uRecep).id ≠ 4 :=
  ⟨(C10_deactivated_counterpart wDb 1 UserRole.Guest 4 uRecepGone rfl rfl rfl).1,
   (C10_deactivated_counterpart wDb 1 UserRole.Guest 4 uRecepGone rfl rfl rfl).2
     failCountQuery (mkContact failCountQuery uRecep) (by decide) (by decide)⟩

end Pupinn
